import Mathlib

/-!
# Shallow embedding of the nkust-crawler-25-storage service

The repository (`src/main.py`, `src/models.py`) is a small FastAPI facade
over MongoDB: a three-level hierarchy (articles → comments → replies)
partitioned by a `platform` path segment that selects a logical database.

We embed the data model and the request handlers as pure Lean functions
over an explicit client state (an association list from platform name to a
per-platform database of three collections).  MongoDB `ObjectId` values
are modelled as natural numbers allocated by a per-database counter;
`datetime` values as natural numbers; the pydantic `Literal` reaction type
as a three-valued inductive.  HTTP exceptions and Python runtime errors
escaping a handler are modelled with an error type, and each handler
returns its result together with the post-state.

Faithfulness notes, traceable to the source:
* `create_comment` (main.py:102-112) builds its insert document with
  `"mark": payload.mark`, but `NewCommentDto` (models.py:42-49) declares
  no field `mark`; pydantic raises `AttributeError` while the dict literal
  is evaluated, before `insert_one` runs.  We model this branch as an
  `attributeError "mark"` outcome with the state unchanged.
* `create_reply` (main.py:160-170) inserts a document without the
  `dislikes` and `reaction_type` keys that `ReplyMongoModel`
  (models.py:98-108) declares; the stored reply document therefore records
  key-absence for those two fields, modelled with an outer `Option`.
* Neither handler wraps `insert_one` in a `try`/`except`, so a
  `DuplicateKeyError` raised by the unique indexes propagates out of the
  handler; we model it as a `duplicateKeyError` outcome.
-/

/-- `Literal["+1", "-1", "0"]` from models.py. -/
inductive Reaction where
  | plus
  | minus
  | zero
deriving DecidableEq, Repr

/-- `NewArticleDto` (models.py:7-12): the POST article payload. -/
structure NewArticleDto where
  id : String
  title : String
  created_at : Nat
  content : String
  url : String
deriving DecidableEq, Repr

/-- `ArticleMongoModel` (models.py:15-21): a stored article document.
`oid` is the `_id` the store assigns on insert. -/
structure ArticleMongoModel where
  oid : Nat
  article_id : String
  url : String
  title : String
  created_at : Nat
  content : String
deriving DecidableEq, Repr

/-- `Article` (models.py:24-29): the public article representation.
It has no field for the internal `_id`. -/
structure Article where
  id : String
  url : String
  title : String
  created_at : Nat
  content : String
deriving DecidableEq, Repr

/-- `article_mongo_model_to_article` (models.py:32-39). -/
def article_mongo_model_to_article (article : ArticleMongoModel) : Article :=
  { id := article.article_id
    url := article.url
    title := article.title
    created_at := article.created_at
    content := article.content }

/-- `NewCommentDto` (models.py:42-49): the POST comment payload.
Its fields are exactly `id, content, created_at, author, likes, dislikes,
reaction_type`; in particular there is no field `mark`. -/
structure NewCommentDto where
  id : String
  content : String
  created_at : Nat
  author : String
  likes : Option Int
  dislikes : Option Int
  reaction_type : Option Reaction
deriving DecidableEq, Repr

/-- `CommentMongoModel` (models.py:52-61): a stored comment document, with
`article_id` an internal reference (ObjectId) to the owning article. -/
structure CommentMongoModel where
  oid : Nat
  article_id : Nat
  comment_id : String
  content : String
  created_at : Nat
  author : String
  likes : Option Int
  dislikes : Option Int
  reaction_type : Option Reaction
deriving DecidableEq, Repr

/-- `Comment` (models.py:64-72): the public comment representation. -/
structure Comment where
  id : String
  article_id : String
  content : String
  created_at : Nat
  author : String
  likes : Option Int
  dislikes : Option Int
  reaction_type : Option Reaction
deriving DecidableEq, Repr

/-- `comment_mongo_model_to_comment` (models.py:75-85): projects a stored
comment, substituting the caller-supplied `article_id` path segment for
the internal reference. -/
def comment_mongo_model_to_comment (comment : CommentMongoModel)
    (article_id : String) : Comment :=
  { id := comment.comment_id
    article_id := article_id
    content := comment.content
    created_at := comment.created_at
    author := comment.author
    likes := comment.likes
    reaction_type := comment.reaction_type
    dislikes := comment.dislikes }

/-- `NewReplyDto` (models.py:88-95): the POST reply payload. -/
structure NewReplyDto where
  id : String
  content : String
  created_at : Nat
  author : String
  likes : Option Int
  dislikes : Option Int
  reaction_type : Option Reaction
deriving DecidableEq, Repr

/-- A stored reply document.  `ReplyMongoModel` (models.py:98-108)
declares `dislikes` and `reaction_type` as required keys, but the only
writer, `create_reply` (main.py:160-170), inserts documents without them,
and MongoDB stores whatever keys the insert supplies.  The outer `Option`
on those two fields records whether the key is present in the document
(`none` = key absent). -/
structure ReplyMongoModel where
  oid : Nat
  article_id : Nat
  comment_id : Nat
  reply_id : String
  content : String
  created_at : Nat
  author : String
  likes : Option Int
  dislikes : Option (Option Int)
  reaction_type : Option (Option Reaction)
deriving DecidableEq, Repr

/-- `Reply` (models.py:111-120): the public reply representation. -/
structure Reply where
  id : String
  article_id : String
  comment_id : String
  content : String
  created_at : Nat
  author : String
  likes : Option Int
  dislikes : Option Int
  reaction_type : Option Reaction
deriving DecidableEq, Repr

/-- Python `KeyError` / `AttributeError` names and the pymongo
`DuplicateKeyError`, plus FastAPI's `HTTPException`: everything that can
escape a handler besides its declared response. -/
inductive HandlerError where
  | httpException (status_code : Nat) (detail : String)
  | attributeError (name : String)
  | keyError (key : String)
  | duplicateKeyError
deriving DecidableEq, Repr

/-- `reply_mongo_model_to_reply` (models.py:123-134): reads
`reply["dislikes"]` then `reply["reaction_type"]`; a document missing one
of those keys raises `KeyError` at the first absent key. -/
def reply_mongo_model_to_reply (reply : ReplyMongoModel)
    (article_id : String) (comment_id : String) :
    Except HandlerError Reply :=
  match reply.dislikes with
  | none => .error (.keyError "dislikes")
  | some d =>
    match reply.reaction_type with
    | none => .error (.keyError "reaction_type")
    | some r =>
      .ok { id := reply.reply_id
            article_id := article_id
            comment_id := comment_id
            content := reply.content
            created_at := reply.created_at
            author := reply.author
            likes := reply.likes
            dislikes := d
            reaction_type := r }

/-- `ArticleMutationResponse` (models.py:137-139). -/
structure ArticleMutationResponse where
  success : Bool
  exists_ : Bool
deriving DecidableEq, Repr

/-- `CommentMutationResponse` (models.py:142-144). -/
structure CommentMutationResponse where
  success : Bool
  exists_ : Bool
deriving DecidableEq, Repr

/-- `ReplyMutationResponse` (models.py:147-149). -/
structure ReplyMutationResponse where
  success : Bool
  exists_ : Bool
deriving DecidableEq, Repr

/-- One logical MongoDB database: the three collections used by the
handlers, plus the counter from which the store allocates `_id`s. -/
structure DB where
  articles : List ArticleMongoModel
  comments : List CommentMongoModel
  replies : List ReplyMongoModel
  nextOid : Nat
deriving DecidableEq, Repr

/-- A database no document was ever written to. -/
def DB.empty : DB :=
  { articles := [], comments := [], replies := [], nextOid := 0 }

/-- The state behind the Mongo client: `client[platform]` selects a
logical database by name, lazily — a never-written platform behaves as an
empty database. -/
def ClientState := List (String × DB)
deriving DecidableEq, Repr

/-- `client[platform]`: the database a platform name selects. -/
def getDB : ClientState → String → DB
  | [], _ => DB.empty
  | (q, db) :: rest, p => if q == p then db else getDB rest p

/-- Store back an updated database under a platform name. -/
def setDB : ClientState → String → DB → ClientState
  | [], p, db => [(p, db)]
  | (q, d) :: rest, p, db =>
    if q == p then (p, db) :: rest else (q, d) :: setDB rest p db

/-- `find_one({"article_id": aid})` on the `articles` collection
(main.py:58, 91, 137, 188, 217, 241, 261). -/
def findArticle (db : DB) (aid : String) : Option ArticleMongoModel :=
  db.articles.find? (fun d => d.article_id == aid)

/-- `find_one({"article_id": article["_id"], "comment_id": cid})` on the
`comments` collection (main.py:97-99, 143-145, 194-196, 222-224). -/
def findComment (db : DB) (articleOid : Nat) (cid : String) :
    Option CommentMongoModel :=
  db.comments.find? (fun c => c.article_id == articleOid && c.comment_id == cid)

/-- `find_one` on the `replies` collection by the resolved ancestor
references and the reply natural key (main.py:151-157). -/
def findReply (db : DB) (articleOid commentOid : Nat) (rid : String) :
    Option ReplyMongoModel :=
  db.replies.find? (fun r =>
    r.article_id == articleOid && r.comment_id == commentOid && r.reply_id == rid)

/-- The unique indexes on `articles` (main.py:54-55): `insert_one` is
rejected with `DuplicateKeyError` when an existing document shares the
`article_id` or the `url`. -/
def articleInsertConflicts (db : DB) (aid url : String) : Bool :=
  db.articles.any (fun d => d.article_id == aid || d.url == url)

/-- The unique compound index on `replies` (main.py:134) over
`(article_id, comment_id, reply_id)`. -/
def replyInsertConflicts (db : DB) (articleOid commentOid : Nat)
    (rid : String) : Bool :=
  db.replies.any (fun r =>
    r.article_id == articleOid && r.comment_id == commentOid && r.reply_id == rid)

/-- `POST /{platform}/articles` — `create_article` (main.py:45-71).
Checks for an article with the payload's `id`; if present returns
`exists=True` without writing, otherwise inserts a document carrying the
payload and returns `exists=False`.  The insert is not guarded by
`try`/`except`, so a duplicate-key rejection by the unique indexes
escapes the handler. -/
def create_article (s : ClientState) (platform : String)
    (payload : NewArticleDto) :
    Except HandlerError ArticleMutationResponse × ClientState :=
  let db := getDB s platform
  match findArticle db payload.id with
  | some _ => (.ok { success := true, exists_ := true }, s)
  | none =>
    if articleInsertConflicts db payload.id payload.url then
      (.error .duplicateKeyError, s)
    else
      let doc : ArticleMongoModel :=
        { oid := db.nextOid
          article_id := payload.id
          url := payload.url
          title := payload.title
          created_at := payload.created_at
          content := payload.content }
      (.ok { success := true, exists_ := false },
        setDB s platform
          { db with articles := db.articles ++ [doc], nextOid := db.nextOid + 1 })

/-- `POST /{platform}/articles/{article_id}/comments` — `create_comment`
(main.py:77-114).  Resolves the article first (404 if absent), then
checks for the comment; if present returns `exists=True`.  Otherwise the
handler evaluates the insert document literal, whose entry
`"mark": payload.mark` (main.py:110) accesses a field `NewCommentDto`
does not declare: pydantic raises `AttributeError` and the insert never
happens. -/
def create_comment (s : ClientState) (platform article_id : String)
    (payload : NewCommentDto) :
    Except HandlerError CommentMutationResponse × ClientState :=
  let db := getDB s platform
  match findArticle db article_id with
  | none => (.error (.httpException 404 "Article not found"), s)
  | some article =>
    match findComment db article.oid payload.id with
    | some _ => (.ok { success := true, exists_ := true }, s)
    | none => (.error (.attributeError "mark"), s)

/-- `POST /{platform}/articles/{article_id}/comments/{comment_id}/replies`
— `create_reply` (main.py:121-172).  Resolves article then comment (404
at the first absent ancestor), checks for the reply, and otherwise
inserts a document carrying the resolved references, the natural key and
the payload's `content`, `created_at`, `author` and `likes` — the insert
(main.py:160-170) supplies no `dislikes` or `reaction_type` key.  As for
articles, a duplicate-key rejection escapes the handler. -/
def create_reply (s : ClientState) (platform article_id comment_id : String)
    (payload : NewReplyDto) :
    Except HandlerError ReplyMutationResponse × ClientState :=
  let db := getDB s platform
  match findArticle db article_id with
  | none => (.error (.httpException 404 "Article not found"), s)
  | some article =>
    match findComment db article.oid comment_id with
    | none => (.error (.httpException 404 "Comment not found"), s)
    | some comment =>
      match findReply db article.oid comment.oid payload.id with
      | some _ => (.ok { success := true, exists_ := true }, s)
      | none =>
        if replyInsertConflicts db article.oid comment.oid payload.id then
          (.error .duplicateKeyError, s)
        else
          let doc : ReplyMongoModel :=
            { oid := db.nextOid
              article_id := article.oid
              comment_id := comment.oid
              reply_id := payload.id
              content := payload.content
              created_at := payload.created_at
              author := payload.author
              likes := payload.likes
              dislikes := none
              reaction_type := none }
          (.ok { success := true, exists_ := false },
            setDB s platform
              { db with replies := db.replies ++ [doc], nextOid := db.nextOid + 1 })

/-- `GET /{platform}/articles/{article_id}/comments/{comment_id}/replies`
— `get_replies` (main.py:176-202).  Resolves article then comment, then
lists and projects every reply under the resolved comment; the list
comprehension raises at the first document the projection fails on. -/
def get_replies (s : ClientState) (platform article_id comment_id : String) :
    Except HandlerError (List Reply) :=
  let db := getDB s platform
  match findArticle db article_id with
  | none => .error (.httpException 404 "Article not found")
  | some article =>
    match findComment db article.oid comment_id with
    | none => .error (.httpException 404 "Comment not found")
    | some comment =>
      (db.replies.filter (fun r =>
          r.article_id == article.oid && r.comment_id == comment.oid)).mapM
        (fun r => reply_mongo_model_to_reply r article_id comment_id)

/-- `GET /{platform}/articles/{article_id}/comments/{comment_id}` —
`get_comment` (main.py:206-228). -/
def get_comment (s : ClientState) (platform article_id comment_id : String) :
    Except HandlerError Comment :=
  let db := getDB s platform
  match findArticle db article_id with
  | none => .error (.httpException 404 "Article not found")
  | some article =>
    match findComment db article.oid comment_id with
    | none => .error (.httpException 404 "Comment not found")
    | some comment => .ok (comment_mongo_model_to_comment comment article_id)

/-- `GET /{platform}/articles/{article_id}/comments` — `get_comments`
(main.py:232-249): resolves the article, then projects every comment
under it, injecting the caller-supplied `article_id`. -/
def get_comments (s : ClientState) (platform article_id : String) :
    Except HandlerError (List Comment) :=
  let db := getDB s platform
  match findArticle db article_id with
  | none => .error (.httpException 404 "Article not found")
  | some article =>
    .ok ((db.comments.filter (fun c => c.article_id == article.oid)).map
      (fun c => comment_mongo_model_to_comment c article_id))

/-- `GET /{platform}/articles/{article_id}` — `get_article`
(main.py:253-265). -/
def get_article (s : ClientState) (platform article_id : String) :
    Except HandlerError Article :=
  let db := getDB s platform
  match findArticle db article_id with
  | none => .error (.httpException 404 "Article not found")
  | some article => .ok (article_mongo_model_to_article article)

/-- `GET /{platform}/articles` — `get_articles` (main.py:269-279): lists
and projects every article of the platform, with no failure path. -/
def get_articles (s : ClientState) (platform : String) :
    Except HandlerError (List Article) :=
  let db := getDB s platform
  .ok (db.articles.map article_mongo_model_to_article)

/-! ## State lemmas -/

theorem getDB_setDB_self (s : ClientState) (p : String) (db : DB) :
    getDB (setDB s p db) p = db := by
  induction s with
  | nil => simp [getDB, setDB]
  | cons head rest ih =>
    obtain ⟨q, d⟩ := head
    by_cases h : q == p
    · simp [setDB, getDB, h]
    · simp only [setDB, getDB, h, if_false, Bool.false_eq_true, if_neg, ite_false]
      simp [getDB, h, ih]

theorem getDB_setDB_ne (s : ClientState) (p q : String) (db : DB)
    (h : p ≠ q) : getDB (setDB s p db) q = getDB s q := by
  induction s with
  | nil => simp [getDB, setDB, beq_iff_eq, h]
  | cons head rest ih =>
    obtain ⟨r, d⟩ := head
    by_cases hrp : r == p
    · have hr : r = p := by simpa [beq_iff_eq] using hrp
      subst hr
      simp [setDB, getDB, hrp, beq_iff_eq, h, Ne.symm]
    · simp [setDB, getDB, hrp, ih]

/-! ## Concrete fixtures for evaluation theorems -/

/-- A concrete article payload. -/
def payA1 : NewArticleDto :=
  { id := "a1", title := "T", created_at := 0, content := "c", url := "u" }

/-- A second article payload with a fresh `id` but the same `url` as
`payA1`. -/
def payA2SameUrl : NewArticleDto :=
  { id := "a2", title := "T2", created_at := 1, content := "c2", url := "u" }

/-- The client state after creating article `a1` on a fresh store. -/
def stateA1 : ClientState := (create_article [] "p1" payA1).2

/-- A concrete comment payload (all optional engagement fields supplied). -/
def payC1 : NewCommentDto :=
  { id := "c1", content := "b1", created_at := 1, author := "alice",
    likes := some 3, dislikes := some 0, reaction_type := some .plus }

/-- A second concrete comment payload. -/
def payC2 : NewCommentDto :=
  { id := "c2", content := "b2", created_at := 2, author := "bob",
    likes := some 1, dislikes := some 1, reaction_type := some .zero }

/-- A stored article document, as `create_article` writes it. -/
def artA1 : ArticleMongoModel :=
  { oid := 0, article_id := "a1", url := "u", title := "T",
    created_at := 0, content := "c" }

/-- A stored comment document of the shape `CommentMongoModel` declares,
owned by `artA1`. -/
def comC1 : CommentMongoModel :=
  { oid := 1, article_id := 0, comment_id := "c1", content := "b1",
    created_at := 1, author := "alice", likes := some 3, dislikes := some 0,
    reaction_type := some .plus }

/-- A client state holding `artA1` and `comC1` under platform `p1`. -/
def seededClient : ClientState :=
  [("p1", { articles := [artA1], comments := [comC1], replies := [],
            nextOid := 2 })]

/-- A concrete reply payload (all optional engagement fields supplied). -/
def payR1 : NewReplyDto :=
  { id := "r1", content := "rb", created_at := 2, author := "carol",
    likes := some 5, dislikes := some 1, reaction_type := some .minus }

/-! ## Claim theorems -/

/-- C1: the create endpoints are claimed to be idempotent — first call
`exists=false` and stores the payload, second call `exists=true`.  The
comment endpoint refutes this: under an existing article `a1`, the very
first `POST .../comments` call reaches the insert branch, where evaluating
`"mark": payload.mark` (main.py:110) raises `AttributeError` because
`NewCommentDto` declares no field `mark`.  The call fails instead of
returning `exists=false`, and the state is unchanged (nothing stored). -/
theorem create_comment_first_call_raises_attribute_error :
    (create_comment stateA1 "p1" "a1" payC1).1 =
      .error (.attributeError "mark") ∧
    (create_comment stateA1 "p1" "a1" payC1).2 = stateA1 :=
  ⟨rfl, rfl⟩

/-- C2: the insert is claimed to carry all of the payload's fields.  For
replies it does not: with article `a1` and comment `c1` resolvable, a
`POST .../replies` whose payload supplies `dislikes := some 1` and
`reaction_type := some -1` succeeds with `exists=false`, but the stored
document has no `dislikes` or `reaction_type` key at all (main.py:160-170
omits them). -/
theorem create_reply_insert_drops_dislikes_and_reaction_type :
    (create_reply seededClient "p1" "a1" "c1" payR1).1 =
      .ok { success := true, exists_ := false } ∧
    payR1.dislikes = some 1 ∧ payR1.reaction_type = some .minus ∧
    (getDB (create_reply seededClient "p1" "a1" "c1" payR1).2 "p1").replies =
      [{ oid := 2, article_id := 0, comment_id := 1, reply_id := "r1",
         content := "rb", created_at := 2, author := "carol",
         likes := some 5, dislikes := none, reaction_type := none }] :=
  ⟨rfl, rfl, rfl, rfl⟩

/-- C3 counterexample: an article whose `url` collides with an existing
article under a different `article_id` slips past the `article_id`
existence check, and the unique index on `url` rejects the insert; the
handler has no `try`/`except` (main.py:61-69), so the `DuplicateKeyError`
propagates as a hard failure — the handler does not return any
`exists=true` response. -/
theorem create_article_duplicate_url_is_hard_failure :
    (create_article stateA1 "p1" payA2SameUrl).1 =
      .error .duplicateKeyError ∧
    ∀ r : ArticleMutationResponse,
      (create_article stateA1 "p1" payA2SameUrl).1 ≠ .ok r :=
  ⟨rfl, fun r h => Except.noConfusion
    (show Except.error HandlerError.duplicateKeyError = Except.ok r from h)⟩

/-- C3 amended: when the pre-insert existence check on `article_id`
misses but the unique indexes reject the insert, `create_article` raises
`DuplicateKeyError` out of the handler, leaving the store unchanged;
`exists=true` is produced only by the pre-insert check. -/
theorem create_article_conflict_propagates
    (s : ClientState) (p : String) (payload : NewArticleDto)
    (h1 : findArticle (getDB s p) payload.id = none)
    (h2 : articleInsertConflicts (getDB s p) payload.id payload.url = true) :
    create_article s p payload = (.error .duplicateKeyError, s) := by
  simp [create_article, h1, h2]

/-- Witness for `create_article_conflict_propagates` at the url-collision
input. -/
theorem create_article_conflict_propagates_witness :
    create_article stateA1 "p1" payA2SameUrl =
      (.error .duplicateKeyError, stateA1) :=
  create_article_conflict_propagates stateA1 "p1" payA2SameUrl rfl rfl

/-- C5: listing after creating `c1` and `c2` under `a1` is claimed to
return exactly two records.  In fact both create-comment calls raise
`AttributeError` on `payload.mark` (main.py:110) before inserting, so the
subsequent `GET /p1/articles/a1/comments` returns the empty list. -/
theorem get_comments_after_creating_two_comments_is_empty :
    (create_comment stateA1 "p1" "a1" payC1).1 =
      .error (.attributeError "mark") ∧
    (create_comment (create_comment stateA1 "p1" "a1" payC1).2
        "p1" "a1" payC2).1 = .error (.attributeError "mark") ∧
    get_comments
      (create_comment (create_comment stateA1 "p1" "a1" payC1).2
        "p1" "a1" payC2).2 "p1" "a1" = .ok [] :=
  ⟨rfl, rfl, rfl⟩

/-- C4: for every state, platform and comment payload, when the
`article_id` path segment resolves to no article, `create_comment` fails
with the article-level 404 (never a comment-level error), examines
nothing further, and leaves the store unchanged. -/
theorem create_comment_unresolvable_article_404
    (s : ClientState) (p aid : String) (payload : NewCommentDto)
    (h : findArticle (getDB s p) aid = none) :
    create_comment s p aid payload =
      (.error (.httpException 404 "Article not found"), s) := by
  simp [create_comment, h]

/-- Witness for `create_comment_unresolvable_article_404` on a fresh
store. -/
theorem create_comment_unresolvable_article_404_witness :
    create_comment [] "p1" "a1" payC1 =
      (.error (.httpException 404 "Article not found"), []) :=
  create_comment_unresolvable_article_404 [] "p1" "a1" payC1 rfl

/-- C6: an article create that succeeds with `exists=false` round-trips —
a subsequent GET of the same `article_id` on the same platform returns
exactly the payload's `id`, `url`, `title`, `created_at` and `content`
(the public `Article` type carries no internal identifier field). -/
theorem create_article_get_article_round_trip
    (s : ClientState) (p : String) (payload : NewArticleDto)
    (h : (create_article s p payload).1 =
      .ok { success := true, exists_ := false }) :
    get_article (create_article s p payload).2 p payload.id =
      .ok { id := payload.id, url := payload.url, title := payload.title,
            created_at := payload.created_at, content := payload.content } := by
  rcases ha : findArticle (getDB s p) payload.id with _ | a
  · by_cases h2 :
      articleInsertConflicts (getDB s p) payload.id payload.url = true
    · simp [create_article, ha, h2] at h
    · simp only [create_article, ha, h2, Bool.false_eq_true, if_false,
        ite_false]
      simp only [get_article, getDB_setDB_self, findArticle]
      rw [List.find?_append]
      simp only [findArticle] at ha
      rw [ha, Option.none_or]
      simp [List.find?, article_mongo_model_to_article]
  · simp [create_article, ha] at h

/-- Witness for `create_article_get_article_round_trip` on a fresh
store. -/
theorem create_article_get_article_round_trip_witness :
    get_article (create_article [] "p1" payA1).2 "p1" payA1.id =
      .ok { id := payA1.id, url := payA1.url, title := payA1.title,
            created_at := payA1.created_at, content := payA1.content } :=
  create_article_get_article_round_trip [] "p1" payA1 rfl

/-- C7: `GET .../replies` resolves the article before the comment: when
the article is unresolvable the result is the article-level 404 whatever
the comment state, when the article resolves but the comment does not the
result is the comment-level 404, and the two 404 messages differ. -/
theorem get_replies_deep_404 (s : ClientState) (p aid cid : String) :
    (findArticle (getDB s p) aid = none →
      get_replies s p aid cid =
        .error (.httpException 404 "Article not found")) ∧
    (∀ a, findArticle (getDB s p) aid = some a →
      findComment (getDB s p) a.oid cid = none →
      get_replies s p aid cid =
        .error (.httpException 404 "Comment not found")) ∧
    ("Article not found" : String) ≠ "Comment not found" :=
  ⟨fun h => by simp [get_replies, h],
   fun a ha hc => by simp [get_replies, ha, hc],
   by decide⟩

/-- Witness for `get_replies_deep_404`: both 404 shapes at concrete
inputs on the seeded store. -/
theorem get_replies_deep_404_witness :
    get_replies seededClient "p1" "a1" "c9" =
      .error (.httpException 404 "Comment not found") ∧
    get_replies seededClient "p1" "zz" "c1" =
      .error (.httpException 404 "Article not found") :=
  ⟨(get_replies_deep_404 seededClient "p1" "a1" "c9").2.1 artA1 rfl rfl,
   (get_replies_deep_404 seededClient "p1" "zz" "c1").1 rfl⟩

/-- C8: creating an article under platform `p1` leaves every distinct
platform `p2` untouched — the database `p2` selects is unchanged, and
every read endpoint under `p2` (including resolving the new article's
id) returns the same result before and after the create. -/
theorem create_article_platform_isolation
    (s : ClientState) (p1 p2 : String) (payload : NewArticleDto)
    (hne : p1 ≠ p2) :
    getDB (create_article s p1 payload).2 p2 = getDB s p2 ∧
    (∀ aid, get_article (create_article s p1 payload).2 p2 aid =
      get_article s p2 aid) ∧
    get_articles (create_article s p1 payload).2 p2 = get_articles s p2 ∧
    (∀ aid, get_comments (create_article s p1 payload).2 p2 aid =
      get_comments s p2 aid) ∧
    (∀ aid cid, get_comment (create_article s p1 payload).2 p2 aid cid =
      get_comment s p2 aid cid) ∧
    (∀ aid cid, get_replies (create_article s p1 payload).2 p2 aid cid =
      get_replies s p2 aid cid) := by
  have hdb : getDB (create_article s p1 payload).2 p2 = getDB s p2 := by
    rcases ha : findArticle (getDB s p1) payload.id with _ | a
    · by_cases h2 :
        articleInsertConflicts (getDB s p1) payload.id payload.url = true
      · simp [create_article, ha, h2]
      · simp [create_article, ha, h2, getDB_setDB_ne s p1 p2 _ hne]
    · simp [create_article, ha]
  exact ⟨hdb, fun aid => by simp [get_article, hdb],
    by simp [get_articles, hdb],
    fun aid => by simp [get_comments, hdb],
    fun aid cid => by simp [get_comment, hdb],
    fun aid cid => by simp [get_replies, hdb]⟩

/-- Witness for `create_article_platform_isolation`: after creating `a1`
in `p1` on a fresh store, `a1` still does not resolve in `p2`. -/
theorem create_article_platform_isolation_witness :
    get_article (create_article [] "p1" payA1).2 "p2" "a1" =
      get_article [] "p2" "a1" :=
  (create_article_platform_isolation [] "p1" "p2" payA1
    (by decide)).2.1 "a1"

/-- C9: every response a create endpoint returns normally — in both the
created (`exists=false`) and already-exists (`exists=true`) branches of
all three handlers — has `success = true`; the field never carries a
failure. -/
theorem mutation_responses_always_success
    (s : ClientState) (p aid cid : String)
    (pa : NewArticleDto) (pc : NewCommentDto) (pr : NewReplyDto) :
    (∀ ra : ArticleMutationResponse,
      (create_article s p pa).1 = .ok ra → ra.success = true) ∧
    (∀ rc : CommentMutationResponse,
      (create_comment s p aid pc).1 = .ok rc → rc.success = true) ∧
    (∀ rr : ReplyMutationResponse,
      (create_reply s p aid cid pr).1 = .ok rr → rr.success = true) := by
  refine ⟨fun ra h => ?_, fun rc h => ?_, fun rr h => ?_⟩
  · rcases ha : findArticle (getDB s p) pa.id with _ | a
    · by_cases h2 : articleInsertConflicts (getDB s p) pa.id pa.url = true
      · simp [create_article, ha, h2] at h
      · simp [create_article, ha, h2] at h
        simp [← h]
    · simp [create_article, ha] at h
      simp [← h]
  · rcases ha : findArticle (getDB s p) aid with _ | a
    · simp [create_comment, ha] at h
    · rcases hc : findComment (getDB s p) a.oid pc.id with _ | c
      · simp [create_comment, ha, hc] at h
      · simp [create_comment, ha, hc] at h
        simp [← h]
  · rcases ha : findArticle (getDB s p) aid with _ | a
    · simp [create_reply, ha] at h
    · rcases hc : findComment (getDB s p) a.oid cid with _ | c
      · simp [create_reply, ha, hc] at h
      · rcases hr : findReply (getDB s p) a.oid c.oid pr.id with _ | r
        · by_cases hdup :
            replyInsertConflicts (getDB s p) a.oid c.oid pr.id = true
          · simp [create_reply, ha, hc, hr, hdup] at h
          · simp [create_reply, ha, hc, hr, hdup] at h
            simp [← h]
        · simp [create_reply, ha, hc, hr] at h
          simp [← h]

/-- Witness for `mutation_responses_always_success`: the created and
already-exists responses of the article endpoint on concrete states both
report `success = true`. -/
theorem mutation_responses_always_success_witness :
    ({ success := true, exists_ := false } :
      ArticleMutationResponse).success = true ∧
    ({ success := true, exists_ := true } :
      ArticleMutationResponse).success = true :=
  ⟨(mutation_responses_always_success [] "p1" "a1" "c1"
      payA1 payC1 payR1).1 { success := true, exists_ := false } rfl,
   (mutation_responses_always_success stateA1 "p1" "a1" "c1"
      payA1 payC1 payR1).1 { success := true, exists_ := true } rfl⟩

/-- C10: `GET /{platform}/articles` has no failure path: on every state
and platform it returns a list, and on a platform whose articles
collection holds no documents — in particular a platform never written
to — it returns the empty list. -/
theorem get_articles_never_404 (s : ClientState) (p : String) :
    (∃ l, get_articles s p = .ok l) ∧
    ((getDB s p).articles = [] → get_articles s p = .ok []) :=
  ⟨⟨_, rfl⟩, fun h => by simp [get_articles, h]⟩

/-- Witness for `get_articles_never_404` on a platform never created. -/
theorem get_articles_never_404_witness :
    get_articles [] "nosuch" = .ok [] :=
  (get_articles_never_404 [] "nosuch").2 rfl
